import Mathlib

/-!
Verification development for the Lumi agent service: a LangGraph-style
routed conversation graph (router → rag / tool / response), a tool
executor with a uniform success/error envelope, and a dual-channel
(updates + messages) stream merger that feeds an SSE endpoint and a
process-wide session history store.

The Python sources are embedded shallowly: pure functions become Lean
functions, the async generators become pure functions over the realized
list of events they consume, machine randomness (`random.choice`)
becomes an explicit index parameter, fallible external calls become
`Except`-valued parameters, and in-memory dicts become association
lists.
-/

/-! ## Dictionaries (Python `dict[str, str]` arguments) -/

/-- A string-keyed, string-valued argument dictionary, as passed to tools. -/
abbrev Dict : Type := List (String × String)

/-- Python `args.get(k)` — lookup returning an optional value. -/
def dget (args : Dict) (k : String) : Option String :=
  List.lookup k args

/-- Python `args.get(k, d)` — lookup with a default. -/
def dgetD (args : Dict) (k : String) (d : String) : String :=
  (dget args k).getD d

/-! ## Messages and conversation state (src/app/graph/state.py) -/

/-- Message role: `HumanMessage` vs `AIMessage` from langchain-core. -/
inductive Role where
  | human
  | ai
  deriving DecidableEq, Repr

/-- A conversation message (`BaseMessage`: a role tag plus text content). -/
structure Message where
  role : Role
  content : String
  deriving DecidableEq, Repr

/-- The routing decision written by the router node (`intent` field of
`LumiState`, one of "chat" / "rag" / "tool"). -/
inductive Intent where
  | chat
  | rag
  | tool
  deriving DecidableEq, Repr

/-! ## Tool results and the tool executor (src/app/tools/executor.py) -/

/-- A song entry of the mock `LUMI_SONGS` table. -/
structure Song where
  title : String
  album : String
  deriving DecidableEq, Repr

/-- A schedule record as returned by the Supabase `schedules` table; the
row contents are opaque to the core, so a row is its field assignments. -/
abbrev Schedule : Type := List (String × String)

/-- The mock weather record `MOCK_WEATHER` (wind speed kept in tenths to
stay in exact arithmetic: 3.2 ↦ 32). -/
structure WeatherInfo where
  location : String
  temperature : Int
  condition : String
  humidity : Nat
  windSpeedTenths : Int
  deriving DecidableEq, Repr

/-- The `data` payload of a tool result envelope; one constructor per
shape of dict the executor builds. -/
inductive ToolData where
  | schedules (items : List Schedule) (count : Option Nat) (message : Option String)
  | letter (letter_id : String) (message : String)
  | song (s : Song) (mood : String)
  | weather (w : WeatherInfo)
  deriving DecidableEq, Repr

/-- The uniform tool result envelope `{success, data?, error?, mock?}`;
an absent `mock` key reads as `false`. -/
structure ToolResult where
  success : Bool
  data : Option ToolData := none
  error : Option String := none
  mock : Bool := false
  deriving DecidableEq, Repr

/-- The mock song table `LUMI_SONGS`, keyed by mood. -/
def LUMI_SONGS (mood : String) : Option (List Song) :=
  if mood = "happy" then
    some [⟨"Shine Bright", "First Light"⟩, ⟨"Happy Day", "Luminous"⟩,
          ⟨"Dancing Star", "First Light"⟩]
  else if mood = "sad" then
    some [⟨"Rainy Day", "Moonlight"⟩, ⟨"Missing You", "Luminous"⟩]
  else if mood = "energetic" then
    some [⟨"Power Up", "Energy"⟩, ⟨"Let's Go!", "First Light"⟩,
          ⟨"On Fire", "Energy"⟩]
  else if mood = "calm" then
    some [⟨"Starlight", "Moonlight"⟩, ⟨"Peaceful Night", "Moonlight"⟩]
  else if mood = "romantic" then
    some [⟨"First Love", "Luminous"⟩, ⟨"Heart Beat", "Luminous"⟩]
  else
    none

/-- The mock weather record `MOCK_WEATHER`. -/
def MOCK_WEATHER : WeatherInfo :=
  ⟨"서울", 5, "맑음", 45, 32⟩

/-- External collaborators of the tool executor.  `scheduleQuery` is the
raw Supabase read issued inside `ScheduleRepository.get_schedules`
(date-range and event-type filters), which may fail with an exception
message.  `createLetter` is `FanLetterRepository.create`.
Modelled from the spec: `src/app/repositories/fan_letter.py` is absent
from the sources; per the spec's storage write capability it takes the
record payload (session, user, category, message) and returns a
generated identifier or fails with a descriptive error. -/
structure ToolEnv where
  scheduleQuery : Option String → Option String → Option String → Except String (List Schedule)
  createLetter : String → Option String → String → String → Except String String

/-- Embeds `ScheduleRepository.get_schedules`: runs the filtered query and on
any exception logs and returns the empty list. -/
def ScheduleRepository.get_schedules (env : ToolEnv)
    (start_date end_date : Option String) (event_type : Option String) :
    List Schedule :=
  match env.scheduleQuery start_date end_date event_type with
  | .ok rows => rows
  | .error _ => []

/-- The event-type filter `_get_schedule` passes to the repository:
`event_type if event_type != "all" else None`. -/
def schedFilter (args : Dict) : Option String :=
  let event_type := dgetD args "event_type" "all"
  if event_type ≠ "all" then some event_type else none

/-- Embeds `ToolExecutor._get_schedule`: query the repository; an empty result
still yields a `success: true` envelope carrying a no-schedules
message. -/
def ToolExecutor.get_schedule (env : ToolEnv) (args : Dict) : ToolResult :=
  let schedules := ScheduleRepository.get_schedules env
    (dget args "start_date") (dget args "end_date") (schedFilter args)
  if schedules.isEmpty then
    { success := true,
      data := some (.schedules [] none (some "해당 기간에 예정된 스케줄이 없어요.")) }
  else
    { success := true,
      data := some (.schedules schedules (some schedules.length) none) }

/-- Embeds `ToolExecutor._send_fan_letter`: defaults the category to "other"
and the message to "", then performs the external write, which may
raise (surface as `Except.error`). -/
def ToolExecutor.send_fan_letter (env : ToolEnv) (args : Dict)
    (session_id : String) (user_id : Option String) :
    Except String ToolResult :=
  let category := dgetD args "category" "other"
  let message := dgetD args "message" ""
  match env.createLetter session_id user_id category message with
  | .ok letter_id =>
      .ok { success := true,
            data := some (.letter letter_id "팬레터가 잘 전달됐어요!") }
  | .error e => .error e

/-- Python `random.choice songs`, with the random draw made explicit as an
index: element `pick % songs.length` of the list. -/
def songPick (songs : List Song) (pick : Nat) : Song :=
  (songs.get? (pick % songs.length)).getD ⟨"", ""⟩

/-- Embeds `ToolExecutor._recommend_song`: mood defaults to "happy"; an unknown
mood falls back to the "happy" table; the envelope is flagged `mock`. -/
def ToolExecutor.recommend_song (pick : Nat) (args : Dict) : ToolResult :=
  let mood := dgetD args "mood" "happy"
  let songs := (LUMI_SONGS mood).getD ((LUMI_SONGS "happy").getD [])
  let selected := songPick songs pick
  { success := true, data := some (.song selected mood), mock := true }

/-- Embeds `ToolExecutor._get_weather`: returns the fixed mock record. -/
def ToolExecutor.get_weather (_args : Dict) : ToolResult :=
  { success := true, data := some (.weather MOCK_WEATHER), mock := true }

/-- Embeds `ToolExecutor.execute`: dispatch on the exact tool name; an unmatched
name yields a `success: false` envelope with the unknown-tool message;
any exception raised inside a dispatched tool is caught and converted to
`{success: false, error: str(e)}`. -/
def ToolExecutor.execute (env : ToolEnv) (pick : Nat) (tool_name : String)
    (tool_args : Dict) (session_id : String) (user_id : Option String) :
    ToolResult :=
  let dispatched : Except String ToolResult :=
    if tool_name = "get_schedule" then
      .ok (ToolExecutor.get_schedule env tool_args)
    else if tool_name = "send_fan_letter" then
      ToolExecutor.send_fan_letter env tool_args session_id user_id
    else if tool_name = "recommend_song" then
      .ok (ToolExecutor.recommend_song pick tool_args)
    else if tool_name = "get_weather" then
      .ok (ToolExecutor.get_weather tool_args)
    else
      .ok { success := false, error := some ("알 수 없는 Tool: " ++ tool_name) }
  match dispatched with
  | .ok res => res
  | .error e => { success := false, error := some e }

/-! ## The compiled graph (src/app/graph/graph.py) -/

/-- The states of the compiled graph: `START`, the four named nodes
registered by `create_lumi_graph`, and `END`. -/
inductive Node where
  | start
  | router
  | rag
  | tool
  | response
  | done
  deriving DecidableEq, Repr

/-- Modelled from the spec: `route_by_intent` lives in
`src/app/graph/edges.py`, which is absent from the sources; per the
spec's routing table it maps a resolved intent `rag`/`tool`/`chat` to
the branch keys `"rag"`/`"tool"`/`"response"`, and an unresolved intent
has no route. -/
def route_by_intent (intent : Option Intent) : Option String :=
  match intent with
  | some .rag => some "rag"
  | some .tool => some "tool"
  | some .chat => some "response"
  | none => none

/-- The `path_map` of the conditional edge added after `router` in
`create_lumi_graph`: branch key to destination node. -/
def path_map (key : String) : Option Node :=
  if key = "rag" then some .rag
  else if key = "tool" then some .tool
  else if key = "response" then some .response
  else none

/-- The successor relation of the compiled graph: the unconditional
edges `START → router`, `rag → response`, `tool → response`,
`response → END`, and after `router` the conditional edge
`route_by_intent` composed with `path_map`. -/
def nextNode (n : Node) (intent : Option Intent) : Option Node :=
  match n with
  | .start => some .router
  | .router => (route_by_intent intent).bind path_map
  | .rag => some .response
  | .tool => some .response
  | .response => some .done
  | .done => none

/-- The executed node sequence from a given state: follow `nextNode`
until `END` (or a missing edge), recording each entered node. -/
def traceFrom (fuel : Nat) (n : Node) (intent : Option Intent) : List Node :=
  match fuel with
  | 0 => []
  | fuel + 1 =>
    match nextNode n intent with
    | none => []
    | some m =>
      match m with
      | .done => []
      | _ => m :: traceFrom fuel m intent

/-- The executed node sequence of a full run, from `START`. -/
def runTrace (intent : Option Intent) : List Node :=
  traceFrom 6 .start intent

/-! ## Conversation state and the graph run (src/app/graph/state.py,
src/app/graph/nodes.py) -/

/-- Embeds `LumiState`: the conversation state threaded through the nodes. -/
structure LumiState where
  messages : List Message
  intent : Option Intent
  retrieved_docs : List String
  tool_name : Option String
  tool_args : Option Dict
  tool_result : Option ToolResult
  session_id : String
  user_id : Option String
  deriving DecidableEq, Repr

/-- The router's classification output: the resolved intent, plus the
tool binding when the intent is `tool`. -/
structure RouterOut where
  intent : Intent
  tool_name : Option String
  tool_args : Option Dict

/-- The external collaborators of a graph run: the router's LLM
classification, the retriever, the tool executor's environment and
random draw, and the responder's token source (the deterministic list of
fragments the LLM streams for a given state).  `routerFrags` are token
chunks the classification call may stream (attributed to the router
node, never user-facing). -/
structure GraphEnv where
  classify : LumiState → RouterOut
  retrieve : LumiState → List String
  toolEnv : ToolEnv
  pick : Nat
  respond : LumiState → List String
  routerFrags : LumiState → List String

/-- Concatenation of the streamed fragments: the full text the
responder's LLM call produces. -/
def joinS : List String → String
  | [] => ""
  | s :: rest => s ++ joinS rest

/-- Modelled from the spec: `router_node` (src/app/graph/nodes.py is
absent from the sources) classifies the conversation into exactly one of
chat/rag/tool, writing `intent` once, and when the intent is `tool`
resolves a concrete `tool_name`/`tool_args` binding. -/
def router_node (env : GraphEnv) (s : LumiState) : LumiState :=
  let r := env.classify s
  { s with intent := some r.intent, tool_name := r.tool_name,
           tool_args := r.tool_args }

/-- Modelled from the spec: `rag_node` (src/app/graph/nodes.py is absent
from the sources) populates `retrieved_docs` (possibly empty, retrieval
is best-effort) and leaves `messages` untouched. -/
def rag_node (env : GraphEnv) (s : LumiState) : LumiState :=
  { s with retrieved_docs := env.retrieve s }

/-- Modelled from the spec: `tool_node` (src/app/graph/nodes.py is
absent from the sources) dispatches the resolved `tool_name`/`tool_args`
through `ToolExecutor.execute` and stores the envelope in
`tool_result`. -/
def tool_node (env : GraphEnv) (s : LumiState) : LumiState :=
  { s with tool_result := some (ToolExecutor.execute env.toolEnv env.pick
      (s.tool_name.getD "") (s.tool_args.getD []) s.session_id s.user_id) }

/-- Modelled from the spec: `response_node` (src/app/graph/nodes.py is
absent from the sources) appends exactly one assistant message whose
content is the concatenation of the fragments streamed by the LLM
call. -/
def response_node (env : GraphEnv) (s : LumiState) : LumiState :=
  { s with messages := s.messages ++ [⟨.ai, joinS (env.respond s)⟩] }

/-- Embeds `graph.ainvoke`: the single-shot, non-streaming run of the compiled
graph — router, then the branch picked by the intent, then the
responder. -/
def runGraph (env : GraphEnv) (s0 : LumiState) : LumiState :=
  let s1 := router_node env s0
  match s1.intent with
  | some .rag => response_node env (rag_node env s1)
  | some .tool => response_node env (tool_node env s1)
  | some .chat => response_node env s1
  | none => s1

/-! ## The dual-channel stream (src/app/api/routes/chat.py) -/

/-- One node's entry in an `updates`-mode event dict: whether the
node's output dict is truthy (non-empty), and the value of its
`tool_name` key (absent key reads as `None`). -/
structure Upd where
  nonempty : Bool
  tool_name : Option String := none
  deriving DecidableEq, Repr

/-- One `messages`-mode event: `(msg, metadata)` — whether `msg` is an
`AIMessageChunk`, its content (`msg.content or ""` realized as a plain
string), and `metadata.get("langgraph_node", "")`. -/
structure MsgEvent where
  isChunk : Bool
  content : String
  node : String
  deriving DecidableEq, Repr

/-- An event yielded by `graph.astream(·, stream_mode=["updates",
"messages"])`: either a node-completion dict (one entry per node) or a
token event. -/
inductive GraphEvent where
  | update (items : List (String × Upd))
  | message (m : MsgEvent)
  deriving DecidableEq, Repr

/-- A tuple yielded by `stream_with_status`: exactly one of the four
slots is populated (the final tuple carries text and tool name
together). -/
inductive SEvent where
  | status (label : String)
  | token (text : String)
  | final (text : String) (tool_used : Option String)
  deriving DecidableEq, Repr

/-- The loop state of `stream_with_status`: the accumulated response
text, the tool name extracted from the tool node's output, and the last
node a status was emitted for. -/
structure MergeState where
  final_response : String
  final_tool_name : Option String
  current_node : Option String
  deriving DecidableEq, Repr

/-- The initial loop state: `final_response = ""`,
`final_tool_name = None`, `current_node = None`. -/
def initMerge : MergeState := ⟨"", none, none⟩

/-- The `node_status` table: node name to user-facing label; names
outside the table produce no status event. -/
def node_status (n : String) : Option String :=
  if n = "router" then some "🔀 루미 생각 중..."
  else if n = "rag" then some "📚 정보 검색 중..."
  else if n = "tool" then some "🔧 도구 실행 중..."
  else if n = "response" then some "💬 응답 작성 중..."
  else none

/-- Process one `(node_name, node_output)` entry of an `updates` event:
emit a status tuple when the node is newly entered and named in
`node_status`, and capture `tool_name` from a truthy tool-node
output. -/
def stepItem1 (st : MergeState) (item : String × Upd) :
    MergeState × List SEvent :=
  let node_name := item.1
  let node_output := item.2
  let step1 : MergeState × List SEvent :=
    match node_status node_name with
    | some label =>
      if some node_name ≠ st.current_node then
        ({ st with current_node := some node_name }, [.status label])
      else (st, [])
    | none => (st, [])
  let st1 := step1.1
  let st2 :=
    if node_name = "tool" ∧ node_output.nonempty then
      { st1 with final_tool_name := node_output.tool_name }
    else st1
  (st2, step1.2)

/-- Process the entries of one `updates` event in order. -/
def stepItems (st : MergeState) : List (String × Upd) →
    MergeState × List SEvent
  | [] => (st, [])
  | item :: rest =>
    let r1 := stepItem1 st item
    let r2 := stepItems r1.1 rest
    (r2.1, r1.2 ++ r2.2)

/-- Process one event of the merged `astream` sequence: an `updates`
event drives status tuples and tool-name capture; a `messages` event
contributes a token tuple only when it is an `AIMessageChunk` from the
`response` node with non-empty content. -/
def stepEvent (st : MergeState) : GraphEvent → MergeState × List SEvent
  | .update items => stepItems st items
  | .message m =>
    if m.node ≠ "response" then (st, [])
    else if m.isChunk then
      if m.content ≠ "" then
        ({ st with final_response := st.final_response ++ m.content },
         [.token m.content])
      else (st, [])
    else (st, [])

/-- Run the merge loop over the whole event sequence. -/
def mergeRun (st : MergeState) : List GraphEvent →
    MergeState × List SEvent
  | [] => (st, [])
  | e :: rest =>
    let r1 := stepEvent st e
    let r2 := mergeRun r1.1 rest
    (r2.1, r1.2 ++ r2.2)

/-! ## The session history store (`SESSION_STORE`) -/

/-- Embeds `SESSION_STORE: dict[str, list[BaseMessage]]` as an association
list with at most one entry per session key. -/
abbrev SessionStore : Type := List (String × List Message)

/-- Python `SESSION_STORE.get(sid, [])`. -/
def storeGet (store : SessionStore) (sid : String) : List Message :=
  (List.lookup sid store).getD []

/-- Python `SESSION_STORE[sid] = v` (replace the entry, or add one). -/
def storeSet (store : SessionStore) (sid : String) (v : List Message) :
    SessionStore :=
  match store with
  | [] => [(sid, v)]
  | (k, w) :: rest =>
    if k = sid then (sid, v) :: rest else (k, w) :: storeSet rest sid v

/-- The end-of-run save: ensure the session entry exists, then append
the user message and the assistant message. -/
def storeAppendPair (store : SessionStore) (sid : String)
    (userMsg aiMsg : Message) : SessionStore :=
  storeSet store sid (storeGet store sid ++ [userMsg, aiMsg])

/-- Python `session_id or "default"`: the empty string is falsy in Python. -/
def defaultSid (sid : String) : String :=
  if sid = "" then "default" else sid

/-- The initial state `stream_with_status` builds: prior session
history plus the new user message, all other fields cleared. -/
def streamInitialState (store : SessionStore) (message sid : String)
    (uid : Option String) : LumiState :=
  { messages := storeGet store (defaultSid sid) ++ [⟨.human, message⟩],
    intent := none, retrieved_docs := [], tool_name := none,
    tool_args := none, tool_result := none,
    session_id := defaultSid sid, user_id := uid }

/-- Embeds `stream_with_status`, as a function of the realized `astream` event
sequence: merge the events into status/token tuples, then (only when
the accumulated text is non-empty) append the user/assistant pair to the
session store, and finally yield the single final tuple. -/
def stream_with_status (store : SessionStore) (message sid : String)
    (events : List GraphEvent) : List SEvent × SessionStore :=
  let sid' := defaultSid sid
  let r := mergeRun initMerge events
  let store' :=
    if r.1.final_response ≠ "" then
      storeAppendPair store sid' ⟨.human, message⟩ ⟨.ai, r.1.final_response⟩
    else store
  (r.2 ++ [.final r.1.final_response r.1.final_tool_name], store')

/-- The accumulated response text a given event sequence produces. -/
def accText (events : List GraphEvent) : String :=
  (mergeRun initMerge events).1.final_response

/-- The tool name the merge loop extracts from a given event sequence. -/
def toolOf (events : List GraphEvent) : Option String :=
  (mergeRun initMerge events).1.final_tool_name

/-! ## The event sequence a graph run emits -/

/-- The `messages`-mode events for a list of fragments streamed while a
given node runs. -/
def fragEvents (node : String) (frags : List String) : List GraphEvent :=
  frags.map (fun t => .message ⟨true, t, node⟩)

/-- The realized `astream(·, stream_mode=["updates", "messages"])`
sequence of a run: token chunks stream while each node runs, and each
node's completion yields an `updates` event carrying its (non-empty)
partial state dict; the tool node's dict carries the resolved
`tool_name`. -/
def graphEvents (env : GraphEnv) (s0 : LumiState) : List GraphEvent :=
  let s1 := router_node env s0
  let routerEvs := fragEvents "router" (env.routerFrags s0) ++
    [.update [("router", ⟨true, s1.tool_name⟩)]]
  let respEvs := fun (s : LumiState) =>
    fragEvents "response" (env.respond s) ++
      [.update [("response", ⟨true, none⟩)]]
  match s1.intent with
  | some .rag =>
    routerEvs ++ [.update [("rag", ⟨true, none⟩)]] ++ respEvs (rag_node env s1)
  | some .tool =>
    let s2 := tool_node env s1
    routerEvs ++ [.update [("tool", ⟨true, s2.tool_name⟩)]] ++ respEvs s2
  | some .chat => routerEvs ++ respEvs s1
  | none => routerEvs

/-- The full streaming helper: build the initial state from the session
history, run the graph's event stream, and merge it. -/
def stream_with_status_run (env : GraphEnv) (store : SessionStore)
    (message sid : String) (uid : Option String) :
    List SEvent × SessionStore :=
  stream_with_status store message sid
    (graphEvents env (streamInitialState store message sid uid))

/-! ## The SSE layer (`generate` inside `chat_stream`) -/

/-- An SSE `StreamEvent` as emitted by the endpoint. -/
inductive SSE where
  | thinking (content : String)
  | token (content : String)
  | response (content : String) (tool_used : Option String)
  | error (message : String)
  | done
  deriving DecidableEq, Repr

/-- The SSE events one `stream_with_status` tuple produces: each slot is
emitted only when truthy (non-empty string). -/
def sseOf : SEvent → List SSE
  | .status label => if label ≠ "" then [.thinking label] else []
  | .token text => if text ≠ "" then [.token text] else []
  | .final text tool => if text ≠ "" then [.response text tool] else []

/-- Embeds `generate`: iterate the inner tuples, translating each to SSE
events, then yield `done`; an exception raised after `k` tuples were
consumed is caught, and a single `error` event plus the terminal `done`
are yielded instead of the rest.  `fault = none` is the fault-free
run; `fault = some (k, msg)` is a fault with message `msg` after `k`
tuples. -/
def generate (inner : List SEvent) (fault : Option (Nat × String)) :
    List SSE :=
  match fault with
  | none => (inner.map sseOf).flatten ++ [.done]
  | some (k, msg) => ((inner.take k).map sseOf).flatten ++ [.error msg, .done]

/-! ## The non-streaming endpoint (`chat`) -/

/-- A parsed `ChatRequest`. -/
structure ChatRequest where
  message : String
  session_id : String
  user_id : Option String
  deriving DecidableEq, Repr

/-- A `ChatResponse` (the timestamp field, wall-clock time, is outside
the model). -/
structure ChatResponse where
  message : String
  tool_used : Option String
  cached : Bool
  deriving DecidableEq, Repr

/-- The initial state the non-streaming `chat` endpoint builds: only
the single new user message, no session history. -/
def chatInitialState (req : ChatRequest) : LumiState :=
  { messages := [⟨.human, req.message⟩], intent := none,
    retrieved_docs := [], tool_name := none, tool_args := none,
    tool_result := none, session_id := req.session_id,
    user_id := req.user_id }

/-- The content of the last message of a run's final state. -/
def lastContent (msgs : List Message) : String :=
  match msgs.getLast? with
  | some m => m.content
  | none => ""

/-- The `chat` endpoint: run the graph on the historyless initial
state, require at least two messages, and answer with the last
message's content and the resolved tool name; errors become an HTTP 500
(`Except.error`). -/
def chat (env : GraphEnv) (req : ChatRequest) : Except String ChatResponse :=
  let final_state := runGraph env (chatInitialState req)
  if final_state.messages.length < 2 then .error "응답 메시지가 없습니다."
  else .ok { message := lastContent final_state.messages,
             tool_used := final_state.tool_name, cached := false }

/-- The `chat` endpoint paired with the process-wide session store: the
handler's body never references `SESSION_STORE`, so the store passes
through untouched. -/
def chatEndpoint (env : GraphEnv) (req : ChatRequest)
    (store : SessionStore) : Except String ChatResponse × SessionStore :=
  (chat env req, store)

/-! ## Concrete environments used to instantiate theorems -/

/-- A tool environment whose external reads and writes both succeed. -/
def envNoop : ToolEnv :=
  ⟨fun _ _ _ => .ok [], fun _ _ _ _ => .ok "letter-1"⟩

/-- A tool environment whose external write raises with message
"boom". -/
def envFailWrite : ToolEnv :=
  ⟨fun _ _ _ => .ok [], fun _ _ _ _ => .error "boom"⟩

/-- A tool environment whose external read raises with message
"db down". -/
def envFailRead : ToolEnv :=
  ⟨fun _ _ _ => .error "db down", fun _ _ _ _ => .ok "letter-1"⟩

/-- The "sad" entries of the mock song table. -/
def sadSongs : List Song := (LUMI_SONGS "sad").getD []

/-- The "happy" entries of the mock song table. -/
def happySongs : List Song := (LUMI_SONGS "happy").getD []

/-- Python `random.choice` always returns an element of its (non-empty)
list. -/
theorem songPick_mem (l : List Song) (h : l ≠ []) (pick : Nat) :
    songPick l pick ∈ l := by
  have hl : 0 < l.length := List.length_pos.mpr h
  have hlt : pick % l.length < l.length := Nat.mod_lt _ hl
  rw [songPick, List.get?_eq_get hlt]
  exact List.get_mem l _ hlt

/-! ## C1 -/

/-- C1: for every run in which the router resolves the intent, the
executed node sequence is exactly one of [router, response],
[router, rag, response], [router, tool, response]; execution starts at
router, the conditional edge maps rag/tool/chat to the rag/tool/response
nodes, rag and tool step unconditionally to response, response steps to
the terminal END, and no node is entered twice. -/
theorem C1_routed_node_sequences :
    (∀ i : Intent, runTrace (some i) ∈
        [[Node.router, Node.response],
         [Node.router, Node.rag, Node.response],
         [Node.router, Node.tool, Node.response]] ∧
      (runTrace (some i)).Nodup ∧
      (runTrace (some i)).head? = some Node.router) ∧
    nextNode Node.router (some .rag) = some Node.rag ∧
    nextNode Node.router (some .tool) = some Node.tool ∧
    nextNode Node.router (some .chat) = some Node.response ∧
    (∀ o : Option Intent, nextNode Node.start o = some Node.router) ∧
    (∀ o : Option Intent, nextNode Node.rag o = some Node.response) ∧
    (∀ o : Option Intent, nextNode Node.tool o = some Node.response) ∧
    (∀ o : Option Intent, nextNode Node.response o = some Node.done) := by
  refine ⟨?_, rfl, rfl, rfl, fun _ => rfl, fun _ => rfl, fun _ => rfl,
    fun _ => rfl⟩
  intro i
  cases i <;> exact ⟨by decide, by decide, by decide⟩

/-! ## C3 -/

/-- C3 (amended): dispatching an unknown tool name returns the envelope
`{success: false, error: "알 수 없는 Tool: <name>"}` (the Korean
unknown-tool message) without raising, for any arguments, session and
user; and an exception raised inside a dispatched tool (here the fan
letter repository's external write) is caught and returned as
`{success: false, error: <message>}`. -/
theorem C3_unknown_tool_dispatch :
    (∀ (env : ToolEnv) (pick : Nat) (name : String) (args : Dict)
        (sid : String) (uid : Option String),
      name ∉ ["get_schedule", "send_fan_letter", "recommend_song",
              "get_weather"] →
      ToolExecutor.execute env pick name args sid uid =
        { success := false, error := some ("알 수 없는 Tool: " ++ name) }) ∧
    (∀ (env : ToolEnv) (pick : Nat) (args : Dict) (sid : String)
        (uid : Option String) (e : String),
      env.createLetter sid uid (dgetD args "category" "other")
          (dgetD args "message" "") = .error e →
      ToolExecutor.execute env pick "send_fan_letter" args sid uid =
        { success := false, error := some e }) := by
  constructor
  · intro env pick name args sid uid h
    simp only [List.mem_cons, List.not_mem_nil, or_false, not_or] at h
    obtain ⟨h1, h2, h3, h4⟩ := h
    simp [ToolExecutor.execute, h1, h2, h3, h4]
  · intro env pick args sid uid e h
    simp [ToolExecutor.execute, ToolExecutor.send_fan_letter, h]

/-- Witness for C3 at concrete inputs: the name "unknown_tool" is not
in the dispatch table and yields the unknown-tool envelope; a write
failure with message "boom" surfaces as a `success: false` envelope. -/
theorem C3_unknown_tool_dispatch_witness :
    ToolExecutor.execute envNoop 0 "unknown_tool" [] "s1" none =
      { success := false, error := some ("알 수 없는 Tool: " ++ "unknown_tool") } ∧
    ToolExecutor.execute envFailWrite 0 "send_fan_letter" [] "s1" none =
      { success := false, error := some "boom" } :=
  ⟨C3_unknown_tool_dispatch.1 envNoop 0 "unknown_tool" [] "s1" none
      (by decide),
   C3_unknown_tool_dispatch.2 envFailWrite 0 [] "s1" none "boom" rfl⟩

/-- C3 counterexample: at `tool_name = "unknown_tool"`, the envelope's
error message is the Korean "알 수 없는 Tool: unknown_tool", not the
claimed "unknown tool: unknown_tool". -/
theorem C3_error_message_counterexample :
    (ToolExecutor.execute envNoop 0 "unknown_tool" [] "s1" none).error =
      some "알 수 없는 Tool: unknown_tool" ∧
    (ToolExecutor.execute envNoop 0 "unknown_tool" [] "s1" none).error ≠
      some "unknown tool: unknown_tool" := by
  exact ⟨by decide, by decide⟩

/-! ## C8 -/

/-- C8: `recommend_song` with `{mood: "sad"}` returns
`{success: true, mock: true, data: {song: s, mood: "sad"}}` with `s`
drawn from the "sad" table, for every random draw; and with the mood
key absent the mood defaults to "happy" and the song is drawn from the
"happy" table. -/
theorem C8_recommend_song_moods :
    (∀ (env : ToolEnv) (pick : Nat) (sid : String) (uid : Option String),
      ToolExecutor.execute env pick "recommend_song" [("mood", "sad")] sid uid =
        { success := true, data := some (.song (songPick sadSongs pick) "sad"),
          mock := true } ∧
      songPick sadSongs pick ∈ sadSongs) ∧
    (∀ (env : ToolEnv) (pick : Nat) (args : Dict) (sid : String)
        (uid : Option String),
      dget args "mood" = none →
      ToolExecutor.execute env pick "recommend_song" args sid uid =
        { success := true,
          data := some (.song (songPick happySongs pick) "happy"),
          mock := true } ∧
      songPick happySongs pick ∈ happySongs) := by
  constructor
  · intro env pick sid uid
    refine ⟨?_, songPick_mem _ (by decide) pick⟩
    simp [ToolExecutor.execute, ToolExecutor.recommend_song, dgetD, dget,
      sadSongs, LUMI_SONGS]
  · intro env pick args sid uid h
    refine ⟨?_, songPick_mem _ (by decide) pick⟩
    simp [ToolExecutor.execute, ToolExecutor.recommend_song, dgetD, h,
      happySongs, LUMI_SONGS]

/-- Witness for C8 at concrete inputs: draw 0 on `{mood: "sad"}` and
draw 1 on an empty argument dict (whose mood lookup is `None`). -/
theorem C8_recommend_song_moods_witness :
    (ToolExecutor.execute envNoop 0 "recommend_song" [("mood", "sad")] "s1" none =
      { success := true, data := some (.song (songPick sadSongs 0) "sad"),
        mock := true } ∧
      songPick sadSongs 0 ∈ sadSongs) ∧
    dget [] "mood" = none ∧
    (ToolExecutor.execute envNoop 1 "recommend_song" [] "s1" none =
      { success := true, data := some (.song (songPick happySongs 1) "happy"),
        mock := true } ∧
      songPick happySongs 1 ∈ happySongs) :=
  ⟨C8_recommend_song_moods.1 envNoop 0 "s1" none, rfl,
   C8_recommend_song_moods.2 envNoop 1 [] "s1" none rfl⟩

/-! ## C9 -/

/-- C9: a failing storage read inside `ScheduleRepository.get_schedules`
yields the empty list instead of raising, for any filter parameters;
and whenever the retrieved list is empty, `_get_schedule` returns a
`success: true` envelope carrying an empty schedule list and the
no-schedules message, never an error envelope. -/
theorem C9_schedule_empty_read :
    (∀ (env : ToolEnv) (sd ed et : Option String) (e : String),
      env.scheduleQuery sd ed et = .error e →
      ScheduleRepository.get_schedules env sd ed et = []) ∧
    (∀ (env : ToolEnv) (args : Dict),
      ScheduleRepository.get_schedules env (dget args "start_date")
          (dget args "end_date") (schedFilter args) = [] →
      ToolExecutor.get_schedule env args =
        { success := true,
          data := some (.schedules [] none
            (some "해당 기간에 예정된 스케줄이 없어요.")) }) := by
  constructor
  · intro env sd ed et e h
    simp [ScheduleRepository.get_schedules, h]
  · intro env args h
    simp [ToolExecutor.get_schedule, h]

/-- Witness for C9 at concrete inputs: a read environment that raises
"db down" yields the empty list, and the empty read yields the
no-schedules success envelope. -/
theorem C9_schedule_empty_read_witness :
    ScheduleRepository.get_schedules envFailRead none none none = [] ∧
    ToolExecutor.get_schedule envFailRead [] =
      { success := true,
        data := some (.schedules [] none
          (some "해당 기간에 예정된 스케줄이 없어요.")) } :=
  ⟨C9_schedule_empty_read.1 envFailRead none none none "db down" rfl,
   C9_schedule_empty_read.2 envFailRead []
     (C9_schedule_empty_read.1 envFailRead none none none "db down" rfl)⟩

/-! ## C10 -/

/-- C10: the non-streaming `chat` endpoint never reads or writes the
session store — its initial state holds only the single new user
message, and the store (every session's entry) is returned unchanged
for every request. -/
theorem C10_chat_store_frame :
    ∀ (env : GraphEnv) (req : ChatRequest) (store : SessionStore),
      (chatEndpoint env req store).2 = store ∧
      (chatInitialState req).messages = [⟨Role.human, req.message⟩] ∧
      (∀ k : String, storeGet (chatEndpoint env req store).2 k = storeGet store k) :=
  fun _ _ _ => ⟨rfl, rfl, fun _ => rfl⟩

/-! ## Merge-loop invariants -/

/-- The texts of the token tuples in a tuple sequence. -/
def tokenTexts (evs : List SEvent) : List String :=
  evs.filterMap fun e => match e with | .token t => some t | _ => none

/-- The fragments of the qualifying chunks of an event sequence: the
`AIMessageChunk`s from the `response` node with non-empty content. -/
def chunkTexts (events : List GraphEvent) : List String :=
  events.filterMap fun e => match e with
    | .message m =>
      if m.node = "response" ∧ m.isChunk = true ∧ m.content ≠ "" then
        some m.content
      else none
    | .update _ => none

/-- The number of final tuples in a tuple sequence. -/
def countFinals (evs : List SEvent) : Nat :=
  evs.countP fun e => match e with | .final _ _ => true | _ => false

/-- Processing an `updates` entry never changes the accumulated
response text. -/
theorem stepItem1_final_response (st : MergeState) (item : String × Upd) :
    (stepItem1 st item).1.final_response = st.final_response := by
  simp only [stepItem1]
  cases node_status item.1 <;> dsimp only <;> split_ifs <;> rfl

/-- An `updates` entry yields at most one tuple, and it is a status
tuple. -/
theorem stepItem1_events (st : MergeState) (item : String × Upd) :
    (stepItem1 st item).2 = [] ∨ ∃ l, (stepItem1 st item).2 = [SEvent.status l] := by
  simp only [stepItem1]
  cases node_status item.1 <;> dsimp only
  · simp
  · split_ifs <;> simp

/-- An `updates` event never changes the accumulated response text. -/
theorem stepItems_final_response : ∀ (items : List (String × Upd)) (st : MergeState),
    (stepItems st items).1.final_response = st.final_response
  | [], _ => rfl
  | item :: rest, st => by
    simp only [stepItems]
    rw [stepItems_final_response rest _, stepItem1_final_response]

/-- An `updates` event yields no token tuples. -/
theorem stepItems_tokens : ∀ (items : List (String × Upd)) (st : MergeState),
    tokenTexts (stepItems st items).2 = []
  | [], _ => rfl
  | item :: rest, st => by
    simp only [stepItems, tokenTexts, List.filterMap_append]
    rcases stepItem1_events st item with h | ⟨l, h⟩ <;>
      simp [h, tokenTexts, stepItems_tokens rest]
      <;> have := stepItems_tokens rest (stepItem1 st item).1
      <;> simpa [tokenTexts] using this

/-- An `updates` event yields no final tuples. -/
theorem stepItems_finals : ∀ (items : List (String × Upd)) (st : MergeState),
    countFinals (stepItems st items).2 = 0
  | [], _ => rfl
  | item :: rest, st => by
    simp only [stepItems, countFinals, List.countP_append]
    rcases stepItem1_events st item with h | ⟨l, h⟩ <;>
      simp [h, countFinals]
      <;> have := stepItems_finals rest (stepItem1 st item).1
      <;> simpa [countFinals] using this

/-- The merge loop accumulates exactly the concatenation of the
qualifying chunk fragments. -/
theorem mergeRun_final_response : ∀ (events : List GraphEvent) (st : MergeState),
    (mergeRun st events).1.final_response =
      st.final_response ++ joinS (chunkTexts events)
  | [], st => by simp [mergeRun, chunkTexts, joinS]
  | .update items :: rest, st => by
    simp only [mergeRun, stepEvent]
    rw [mergeRun_final_response rest _, stepItems_final_response]
    simp [chunkTexts]
  | .message m :: rest, st => by
    by_cases h1 : m.node = "response"
    · by_cases h2 : m.isChunk
      · by_cases h3 : m.content = ""
        · simp [mergeRun, stepEvent, chunkTexts, List.filterMap_cons, h1, h2,
            h3, mergeRun_final_response rest]
        · simp [mergeRun, stepEvent, chunkTexts, List.filterMap_cons, h1, h2,
            h3, mergeRun_final_response rest, joinS, String.append_assoc]
      · simp [mergeRun, stepEvent, chunkTexts, List.filterMap_cons, h1, h2,
          mergeRun_final_response rest]
    · simp [mergeRun, stepEvent, chunkTexts, List.filterMap_cons, h1,
        mergeRun_final_response rest]

/-- The merge loop emits exactly one token tuple per qualifying chunk,
carrying its fragment, in order. -/
theorem mergeRun_tokens : ∀ (events : List GraphEvent) (st : MergeState),
    tokenTexts (mergeRun st events).2 = chunkTexts events
  | [], st => by simp [mergeRun, tokenTexts, chunkTexts]
  | .update items :: rest, st => by
    have h := stepItems_tokens items st
    simp only [mergeRun, stepEvent, tokenTexts, List.filterMap_append] at h ⊢
    simp [h, chunkTexts, List.filterMap_cons]
    have := mergeRun_tokens rest (stepItems st items).1
    simpa [tokenTexts, chunkTexts] using this
  | .message m :: rest, st => by
    by_cases h1 : m.node = "response"
    · by_cases h2 : m.isChunk
      · by_cases h3 : m.content = ""
        · have := mergeRun_tokens rest st
          simp [mergeRun, stepEvent, tokenTexts, chunkTexts,
            List.filterMap_cons, List.filterMap_append, h1, h2, h3] at this ⊢
          exact this
        · have := mergeRun_tokens rest
            ⟨st.final_response ++ m.content, st.final_tool_name, st.current_node⟩
          simp [mergeRun, stepEvent, tokenTexts, chunkTexts,
            List.filterMap_cons, List.filterMap_append, h1, h2, h3] at this ⊢
          exact this
      · have := mergeRun_tokens rest st
        simp [mergeRun, stepEvent, tokenTexts, chunkTexts,
          List.filterMap_cons, List.filterMap_append, h1, h2] at this ⊢
        exact this
    · have := mergeRun_tokens rest st
      simp [mergeRun, stepEvent, tokenTexts, chunkTexts,
        List.filterMap_cons, List.filterMap_append, h1] at this ⊢
      exact this

/-- The merge loop itself never emits a final tuple. -/
theorem mergeRun_finals : ∀ (events : List GraphEvent) (st : MergeState),
    countFinals (mergeRun st events).2 = 0
  | [], st => by simp [mergeRun, countFinals]
  | .update items :: rest, st => by
    have h := stepItems_finals items st
    have h2 := mergeRun_finals rest (stepItems st items).1
    simp only [mergeRun, stepEvent, countFinals, List.countP_append] at h h2 ⊢
    omega
  | .message m :: rest, st => by
    by_cases h1 : m.node = "response"
    · by_cases h2 : m.isChunk
      · by_cases h3 : m.content = ""
        · have := mergeRun_finals rest st
          simp [mergeRun, stepEvent, countFinals, List.countP_append,
            h1, h2, h3] at this ⊢
          exact this
        · have := mergeRun_finals rest
            ⟨st.final_response ++ m.content, st.final_tool_name, st.current_node⟩
          simp [mergeRun, stepEvent, countFinals, List.countP_append,
            h1, h2, h3] at this ⊢
          exact this
      · have := mergeRun_finals rest st
        simp [mergeRun, stepEvent, countFinals, List.countP_append,
          h1, h2] at this ⊢
        exact this
    · have := mergeRun_finals rest st
      simp [mergeRun, stepEvent, countFinals, List.countP_append, h1]
        at this ⊢
      exact this

/-! ## C4 -/

/-- The claim's scenario event sequence: the responder streams the
fragments "안" and "녕"; the router streams one fragment of its own. -/
def scenarioEvents : List GraphEvent :=
  [.message ⟨true, "안", "response"⟩, .message ⟨true, "녕", "response"⟩,
   .message ⟨true, "길", "router"⟩]

/-- C4: a token tuple is emitted, and its fragment appended to the
accumulated text, exactly for the message chunks that originate from
the `response` node with non-empty content; chunks attributed to other
nodes contribute nothing.  In particular the scenario run yields
exactly the two token fragments "안", "녕" and the accumulated text
"안녕". -/
theorem C4_token_events_iff_response_chunks :
    (∀ (store : SessionStore) (msg sid : String) (events : List GraphEvent),
      tokenTexts (stream_with_status store msg sid events).1 =
        chunkTexts events ∧
      accText events = joinS (chunkTexts events)) ∧
    tokenTexts (stream_with_status [] "hi" "s1" scenarioEvents).1 =
      ["안", "녕"] ∧
    accText scenarioEvents = "안녕" := by
  refine ⟨fun store msg sid events => ⟨?_, ?_⟩, by decide, by decide⟩
  · have h := mergeRun_tokens events initMerge
    simp only [tokenTexts] at h
    simp [stream_with_status, tokenTexts, List.filterMap_append, h]
  · have h := mergeRun_final_response events initMerge
    simpa [accText, initMerge, String.empty_append] using h

/-! ## C2 -/

/-- Setting a session entry makes exactly that entry readable. -/
theorem storeGet_storeSet_self : ∀ (store : SessionStore) (sid : String)
    (v : List Message), storeGet (storeSet store sid v) sid = v
  | [], sid, v => by simp [storeSet, storeGet, List.lookup]
  | (k, w) :: rest, sid, v => by
    by_cases h : k = sid
    · simp [storeSet, storeGet, List.lookup, h]
    · simp only [storeSet, if_neg h]
      have hne : (sid == k) = false := by
        simp [beq_eq_false_iff_ne, Ne.symm h]
      have := storeGet_storeSet_self rest sid v
      simp only [storeGet, List.lookup, hne] at this ⊢
      exact this

/-- One completed streaming run appends the user/assistant pair exactly
when the accumulated text is non-empty, and appends nothing
otherwise. -/
theorem streamStoreGet (store : SessionStore) (msg sid : String)
    (events : List GraphEvent) (h : sid ≠ "") :
    storeGet (stream_with_status store msg sid events).2 sid =
      if accText events ≠ "" then
        storeGet store sid ++ [⟨.human, msg⟩, ⟨.ai, accText events⟩]
      else storeGet store sid := by
  simp only [stream_with_status, defaultSid, if_neg h]
  by_cases hacc : (mergeRun initMerge events).1.final_response = ""
  · simp [hacc, accText]
  · simp [hacc, accText, storeAppendPair, storeGet_storeSet_self,
      defaultSid, if_neg h]

/-- A sequence of completed streaming runs for one session, each given
by its message and its realized event sequence. -/
def runMany (store : SessionStore) (sid : String) :
    List (String × List GraphEvent) → SessionStore
  | [] => store
  | (msg, events) :: rest =>
    runMany (stream_with_status store msg sid events).2 sid rest

/-- C2 (amended): one completed streaming run appends the pair (user
message, assistant message with the accumulated text) exactly when the
accumulated text is non-empty, and appends nothing otherwise; hence
after N completed runs for one session the history grows by exactly
2 × (number of runs whose accumulated text was non-empty). -/
theorem C2_session_history_growth : ∀ (store : SessionStore) (sid : String)
    (runs : List (String × List GraphEvent)), sid ≠ "" →
    (∀ (msg : String) (events : List GraphEvent),
      storeGet (stream_with_status store msg sid events).2 sid =
        if accText events ≠ "" then
          storeGet store sid ++ [⟨.human, msg⟩, ⟨.ai, accText events⟩]
        else storeGet store sid) ∧
    (storeGet (runMany store sid runs) sid).length =
      (storeGet store sid).length +
        2 * (runs.countP fun r => accText r.2 != "") := by
  intro store sid runs h
  refine ⟨fun msg events => streamStoreGet store msg sid events h, ?_⟩
  induction runs generalizing store with
  | nil => simp [runMany]
  | cons r rest ih =>
    obtain ⟨msg, events⟩ := r
    simp only [runMany, List.countP_cons]
    rw [ih (stream_with_status store msg sid events).2]
    rw [streamStoreGet store msg sid events h]
    by_cases hacc : accText events = ""
    · simp [hacc]
    · simp only [ne_eq, hacc, not_false_eq_true, if_true, if_pos,
        List.length_append]
      simp [hacc, bne_iff_ne]
      omega

/-- A completed run whose responder streamed no (non-empty) tokens:
both nodes complete, the accumulated text stays empty. -/
def emptyRunEvents : List GraphEvent :=
  [.update [("router", ⟨true, none⟩)], .update [("response", ⟨true, none⟩)]]

/-- C2 counterexample: a completed streaming run whose accumulated text
is empty (the responder streamed no non-empty chunk) appends nothing:
the session entry's length grows by 0, not 2. -/
theorem C2_empty_run_counterexample :
    (stream_with_status [] "안녕" "s1" emptyRunEvents).2 = [] ∧
    ¬((storeGet (stream_with_status [] "안녕" "s1" emptyRunEvents).2
        "s1").length = (storeGet ([] : SessionStore) "s1").length + 2) := by
  exact ⟨by decide, by decide⟩

/-- Witness for C2 at concrete inputs: for session "s1" and two runs —
one streaming the fragment "안" (appended as a pair), one streaming
nothing (appended as nothing) — the history grows by exactly 2 · 1. -/
theorem C2_session_history_growth_witness :
    storeGet (stream_with_status [] "hi" "s1"
        [.message ⟨true, "안", "response"⟩]).2 "s1" =
      [⟨.human, "hi"⟩, ⟨.ai, "안"⟩] ∧
    (storeGet (runMany [] "s1"
        [("hi", [.message ⟨true, "안", "response"⟩]),
         ("again", emptyRunEvents)]) "s1").length = 0 + 2 * 1 := by
  have h := C2_session_history_growth [] "s1"
    [("hi", [.message ⟨true, "안", "response"⟩]), ("again", emptyRunEvents)]
    (by decide)
  refine ⟨?_, ?_⟩
  · have h1 := h.1 "hi" [.message ⟨true, "안", "response"⟩]
    simpa using h1
  · have h2 := h.2
    simpa using h2

/-! ## SSE-level counting helpers -/

/-- Number of `response` events in an SSE sequence. -/
def countResponses (out : List SSE) : Nat :=
  out.countP fun e => match e with | .response _ _ => true | _ => false

/-- Number of `error` events in an SSE sequence. -/
def countErrors (out : List SSE) : Nat :=
  out.countP fun e => match e with | .error _ => true | _ => false

/-- Number of `done` events in an SSE sequence. -/
def countDones (out : List SSE) : Nat :=
  out.countP fun e => match e with | .done => true | _ => false

/-- A single tuple's SSE translation contains no `done` and no `error`
event. -/
theorem sseOf_no_done_error (e : SEvent) :
    countDones (sseOf e) = 0 ∧ countErrors (sseOf e) = 0 := by
  cases e <;> simp only [sseOf] <;> split_ifs <;>
    simp [countDones, countErrors]

/-- The SSE translation of a tuple sequence contains no `done` and no
`error` events. -/
theorem sse_flatten_no_done_error : ∀ (evs : List SEvent),
    countDones (evs.map sseOf).flatten = 0 ∧
    countErrors (evs.map sseOf).flatten = 0
  | [] => ⟨rfl, rfl⟩
  | e :: rest => by
    have h1 := sseOf_no_done_error e
    have h2 := sse_flatten_no_done_error rest
    simp only [List.map_cons, List.flatten_cons, countDones, countErrors,
      List.countP_append] at h1 h2 ⊢
    omega

/-- A tuple sequence with no final tuple translates to an SSE sequence
with no `response` event. -/
theorem no_final_no_response : ∀ (evs : List SEvent),
    countFinals evs = 0 → countResponses (evs.map sseOf).flatten = 0
  | [], _ => rfl
  | e :: rest, h => by
    simp only [countFinals, List.countP_cons] at h
    have hrest : countFinals rest = 0 := by
      simp only [countFinals]; omega
    have hr := no_final_no_response rest hrest
    simp only [List.map_cons, List.flatten_cons, countResponses,
      List.countP_append] at hr ⊢
    cases e with
    | status l =>
      simp only [sseOf]
      split_ifs <;> simp [countResponses] at hr ⊢ <;> omega
    | token t =>
      simp only [sseOf]
      split_ifs <;> simp [countResponses] at hr ⊢ <;> omega
    | final t tool => simp at h

/-! ## C5 -/

/-- C5 (amended): for every fault-free completed run whose accumulated
text is non-empty, the tuple stream is the status/token tuples followed
by exactly one final tuple carrying the accumulated text and the
resolved tool name; the session pair is appended; and the SSE stream is
the translated tuples followed by exactly one `response` event and then
the terminal `done`, with no `response` event before it. -/
theorem C5_single_final_event : ∀ (store : SessionStore) (msg sid : String)
    (events : List GraphEvent), accText events ≠ "" →
    (stream_with_status store msg sid events).1 =
      (mergeRun initMerge events).2 ++
        [.final (accText events) (toolOf events)] ∧
    countFinals (stream_with_status store msg sid events).1 = 1 ∧
    countFinals (mergeRun initMerge events).2 = 0 ∧
    (stream_with_status store msg sid events).2 =
      storeAppendPair store (defaultSid sid) ⟨.human, msg⟩
        ⟨.ai, accText events⟩ ∧
    generate (stream_with_status store msg sid events).1 none =
      ((mergeRun initMerge events).2.map sseOf).flatten ++
        [.response (accText events) (toolOf events), .done] ∧
    countResponses (((mergeRun initMerge events).2.map sseOf).flatten) = 0 := by
  intro store msg sid events h
  have hfin := mergeRun_finals events initMerge
  refine ⟨rfl, ?_, hfin, ?_, ?_, no_final_no_response _ hfin⟩
  · simp only [stream_with_status, countFinals, List.countP_append]
    simp only [countFinals] at hfin
    rw [hfin]
    simp
  · simp only [stream_with_status, accText] at h ⊢
    simp [h]
  · simp only [stream_with_status, generate, List.map_append,
      List.flatten_append, accText, toolOf]
    simp only [accText] at h
    simp [sseOf, h]

/-- Witness for C5 at concrete inputs: a run with a single "안" chunk
from the responder. -/
theorem C5_single_final_event_witness :
    accText [GraphEvent.message ⟨true, "안", "response"⟩] ≠ "" ∧
    (stream_with_status [] "hi" "s1"
        [GraphEvent.message ⟨true, "안", "response"⟩]).1 =
      (mergeRun initMerge [GraphEvent.message ⟨true, "안", "response"⟩]).2 ++
        [.final (accText [GraphEvent.message ⟨true, "안", "response"⟩])
          (toolOf [GraphEvent.message ⟨true, "안", "response"⟩])] ∧
    generate (stream_with_status [] "hi" "s1"
        [GraphEvent.message ⟨true, "안", "response"⟩]).1 none =
      ((mergeRun initMerge
          [GraphEvent.message ⟨true, "안", "response"⟩]).2.map sseOf).flatten ++
        [.response (accText [GraphEvent.message ⟨true, "안", "response"⟩])
          (toolOf [GraphEvent.message ⟨true, "안", "response"⟩]), .done] := by
  have h := C5_single_final_event [] "hi" "s1"
    [GraphEvent.message ⟨true, "안", "response"⟩] (by decide)
  exact ⟨by decide, h.1, h.2.2.2.2.1⟩

/-- C5 counterexample: a fault-free completed run whose responder
streamed no non-empty chunk emits zero `response` events, not exactly
one. -/
theorem C5_empty_run_counterexample :
    countResponses (generate
        (stream_with_status [] "안녕" "s1" emptyRunEvents).1 none) = 0 ∧
    countResponses (generate
        (stream_with_status [] "안녕" "s1" emptyRunEvents).1 none) ≠ 1 := by
  exact ⟨by decide, by decide⟩

/-! ## C6 -/

/-- C6: every SSE stream the endpoint produces terminates with exactly
one `done`, whatever the fault behaviour; a fault after `k` consumed
tuples yields the translated prefix, then exactly one `error` event
carrying the fault's message, immediately followed by the terminal
`done`, with no `response` (or any other) event after the error. -/
theorem C6_done_terminates_every_stream :
    ∀ (store : SessionStore) (msg sid : String) (events : List GraphEvent)
      (k : Nat) (m : String),
    countDones (generate (stream_with_status store msg sid events).1 none)
      = 1 ∧
    (generate (stream_with_status store msg sid events).1 none).getLast?
      = some .done ∧
    countErrors (generate (stream_with_status store msg sid events).1 none)
      = 0 ∧
    generate (stream_with_status store msg sid events).1 (some (k, m)) =
      (((stream_with_status store msg sid events).1.take k).map
        sseOf).flatten ++ [.error m, .done] ∧
    countDones (generate (stream_with_status store msg sid events).1
      (some (k, m))) = 1 ∧
    countErrors (generate (stream_with_status store msg sid events).1
      (some (k, m))) = 1 ∧
    countErrors ((((stream_with_status store msg sid events).1.take k).map
      sseOf).flatten) = 0 ∧
    (generate (stream_with_status store msg sid events).1
        (some (k, m))).drop
      ((((stream_with_status store msg sid events).1.take k).map
        sseOf).flatten.length + 1) = [.done] := by
  intro store msg sid events k m
  have hall := sse_flatten_no_done_error
    (stream_with_status store msg sid events).1
  have htake := sse_flatten_no_done_error
    ((stream_with_status store msg sid events).1.take k)
  refine ⟨?_, ?_, ?_, rfl, ?_, ?_, htake.2, ?_⟩
  · simp only [generate, countDones, List.countP_append] at hall ⊢
    rw [hall.1]
    simp
  · simp [generate, List.getLast?_concat]
  · simp only [generate, countErrors, List.countP_append] at hall ⊢
    rw [hall.2]
    simp
  · simp only [generate, countDones, List.countP_append] at htake ⊢
    rw [htake.1]
    simp
  · simp only [generate, countErrors, List.countP_append] at htake ⊢
    rw [htake.2]
    simp
  · simp only [generate]
    rw [show ((((stream_with_status store msg sid events).1.take k).map
        sseOf).flatten) ++ [SSE.error m, SSE.done] =
      (((((stream_with_status store msg sid events).1.take k).map
        sseOf).flatten) ++ [SSE.error m]) ++ [SSE.done] by simp]
    rw [show (((((stream_with_status store msg sid events).1.take k).map
        sseOf).flatten).length + 1) =
      (((((stream_with_status store msg sid events).1.take k).map
        sseOf).flatten) ++ [SSE.error m]).length by simp]
    exact List.drop_left _ _

/-! ## C7 -/

/-- The text carried by the stream's final tuple. -/
def finalText (evs : List SEvent) : String :=
  match evs.getLast? with
  | some (.final t _) => t
  | _ => ""

/-- The final tuple of a streaming run carries exactly the accumulated
text. -/
theorem finalText_stream (store : SessionStore) (msg sid : String)
    (events : List GraphEvent) :
    finalText (stream_with_status store msg sid events).1 =
      accText events := by
  simp [stream_with_status, finalText, List.getLast?_concat, accText]

/-- Qualifying chunks split across concatenation. -/
theorem chunkTexts_append (a b : List GraphEvent) :
    chunkTexts (a ++ b) = chunkTexts a ++ chunkTexts b := by
  simp [chunkTexts, List.filterMap_append]

/-- A lone `updates` event contributes no qualifying chunk. -/
theorem chunkTexts_update_singleton (items : List (String × Upd)) :
    chunkTexts [.update items] = [] := rfl

/-- Chunks streamed from the `response` node qualify exactly when their
content is non-empty. -/
theorem chunkTexts_fragEvents_response : ∀ (frags : List String),
    chunkTexts (fragEvents "response" frags) =
      frags.filterMap fun t => if t ≠ "" then some t else none
  | [] => rfl
  | t :: rest => by
    have ih := chunkTexts_fragEvents_response rest
    simp only [fragEvents, List.map_cons, chunkTexts,
      List.filterMap_cons] at ih ⊢
    by_cases h : t = ""
    · rw [if_neg (by simp [h]), if_neg (by simp [h])]
      exact ih
    · rw [if_pos (by simp [h]), if_pos (by simp [h]), ih]

/-- Chunks streamed from the `router` node never qualify. -/
theorem chunkTexts_fragEvents_router : ∀ (frags : List String),
    chunkTexts (fragEvents "router" frags) = []
  | [] => rfl
  | t :: rest => by
    have ih := chunkTexts_fragEvents_router rest
    simp only [fragEvents, List.map_cons, chunkTexts,
      List.filterMap_cons] at ih ⊢
    rw [if_neg (by simp)]
    exact ih

/-- Dropping empty fragments does not change the concatenation. -/
theorem joinS_filterMap_ne : ∀ (l : List String),
    joinS (l.filterMap fun t => if t ≠ "" then some t else none) = joinS l
  | [] => rfl
  | t :: rest => by
    by_cases h : t = ""
    · simp only [List.filterMap_cons]
      rw [if_neg (by simp [h])]
      rw [joinS_filterMap_ne rest]
      simp [joinS, h, String.empty_append]
    · simp only [List.filterMap_cons]
      rw [if_pos (by simp [h])]
      simp only [joinS]
      rw [joinS_filterMap_ne rest]

/-- The content of the message appended by the responder is the last
message of the final state. -/
theorem lastContent_concat (msgs : List Message) (m : Message) :
    lastContent (msgs ++ [m]) = m.content := by
  simp [lastContent, List.getLast?_concat]

/-- The accumulated text of a run's realized event stream equals the
content of the last message of the same run's non-streaming final
state: both are the concatenation of the responder's fragments. -/
theorem accText_graphEvents (env : GraphEnv) (s0 : LumiState) :
    accText (graphEvents env s0) =
      lastContent (runGraph env s0).messages := by
  have hacc : ∀ events, accText events = joinS (chunkTexts events) := by
    intro events
    have h := mergeRun_final_response events initMerge
    simpa [accText, initMerge, String.empty_append] using h
  rcases hcl : (env.classify s0).intent with _ | _ | _ <;>
    simp only [graphEvents, runGraph, router_node, hcl, response_node] <;>
    rw [hacc] <;>
    simp only [chunkTexts_append, chunkTexts_update_singleton,
      chunkTexts_fragEvents_router, chunkTexts_fragEvents_response,
      List.nil_append, List.append_nil, lastContent_concat] <;>
    exact joinS_filterMap_ne _

/-- C7: given identical initial conversation state (empty session
history) and a deterministic token source, the text carried by the
streaming run's final tuple equals the content of the last message of
the final state returned by the non-streaming `graph.ainvoke` run. -/
theorem C7_streaming_nonstreaming_equivalence :
    ∀ (env : GraphEnv) (msg sid : String) (uid : Option String),
    sid ≠ "" →
    streamInitialState [] msg sid uid = chatInitialState ⟨msg, sid, uid⟩ ∧
    finalText (stream_with_status_run env [] msg sid uid).1 =
      lastContent (runGraph env (chatInitialState ⟨msg, sid, uid⟩)).messages := by
  intro env msg sid uid h
  have hstate : streamInitialState [] msg sid uid =
      chatInitialState ⟨msg, sid, uid⟩ := by
    simp [streamInitialState, chatInitialState, defaultSid, if_neg h,
      storeGet, List.lookup]
  refine ⟨hstate, ?_⟩
  rw [stream_with_status_run, finalText_stream, hstate,
    accText_graphEvents]

/-- A deterministic chat-intent environment: the router classifies as
chat while streaming one internal fragment, and the responder streams
"안" then "녕". -/
def envChat : GraphEnv :=
  ⟨fun _ => ⟨.chat, none, none⟩, fun _ => [], envNoop, 0,
   fun _ => ["안", "녕"], fun _ => ["생각"]⟩

/-- Witness for C7 at concrete inputs: the chat environment, message
"안녕하세요", session "s1". -/
theorem C7_streaming_nonstreaming_equivalence_witness :
    streamInitialState [] "안녕하세요" "s1" none =
      chatInitialState ⟨"안녕하세요", "s1", none⟩ ∧
    finalText (stream_with_status_run envChat [] "안녕하세요" "s1" none).1 =
      lastContent (runGraph envChat
        (chatInitialState ⟨"안녕하세요", "s1", none⟩)).messages :=
  C7_streaming_nonstreaming_equivalence envChat "안녕하세요" "s1" none
    (by decide)
